import Mathlib

/-!
Verification of the selection-chain traversal engine of
`scrape_judicial_processes.py` (class `JudicialProcessScraper`).

The five dependent dropdown levels are DEPARTMENT, CITY, ENTITY, SPECIALTY,
OFFICE.  `handle_select_chain(department_index, city_index, entity_index,
specialty_index, office_index)` is a recursive backtracking procedure: each
invocation re-opens the dropdowns in order, re-selects the option at each
level's index, and either searches at a complete path or recurses with
advanced indices.  We model one invocation as a pure step function
(`select_chain_step`) over a form tree, and the whole recursion as
`handle_select_chain`, which returns the list of events (selection-state
snapshots and searches) the traversal produces.
-/

/-- The option lists of the remote form, as the scraper reads them each time a
dropdown is opened (`find_elements(By.CSS_SELECTOR, ".v-list-item__title")`).
Index 0 of each list is the placeholder entry.  Deeper lists depend on the
indices selected at the shallower levels.  A transient read failure (the
`except` branches that set `departments = []` etc.) is representable by an
empty or short list. -/
structure FormTree where
  departments : List String
  cities : Nat → List String
  entities : Nat → Nat → List String
  specialties : Nat → Nat → Nat → List String
  offices : Nat → Nat → Nat → Nat → List String

/-- The five index arguments of one `handle_select_chain` invocation. -/
structure Args where
  dept : Nat
  city : Nat
  entity : Nat
  specialty : Nat
  office : Nat
deriving DecidableEq, Repr

/-- The default start of the traversal: all five indices are 1
(`handle_select_chain()` with its default arguments). -/
def chainStart : Args := ⟨1, 1, 1, 1, 1⟩

/-- Which of the five option clicks raise inside this invocation (the
`except Exception` handlers around `departments[department_index].click()`
and its four deeper analogues, e.g. a `StaleElementReferenceException`). -/
structure Faults where
  dept : Bool
  city : Bool
  entity : Bool
  specialty : Bool
  office : Bool
deriving DecidableEq, Repr

/-- The fault-free schedule: no option click raises anywhere. -/
def noFaults : Args → Faults := fun _ => ⟨false, false, false, false, false⟩

/-- Selection State: the option (index, text) currently chosen at each level,
`none` when the level has not been selected.  In the source the texts live in
the local variables `selected_dept_text` … `selected_office_text` of one
invocation and the indices in its parameters. -/
structure SelState where
  dept : Option (Nat × String)
  city : Option (Nat × String)
  entity : Option (Nat × String)
  specialty : Option (Nat × String)
  office : Option (Nat × String)
deriving DecidableEq, Repr

/-- The empty Selection State at the start of an invocation. -/
def SelState.empty : SelState := ⟨none, none, none, none, none⟩

/-- Events of the traversal: a Selection State snapshot after a successful
option click, or the search triggered at a complete path. -/
inductive Ev where
  | sel (st : SelState)
  | search (a : Args)
deriving DecidableEq, Repr

/-- What one `handle_select_chain` invocation produces: its events in order,
and the argument tuple of its single tail recursive call (`none` when the
invocation returns without recursing, lines 252 and 256 of the source). -/
structure StepOut where
  events : List Ev
  next : Option Args
deriving DecidableEq, Repr

/-- Selection State after the department click of an invocation at `a`
succeeded (`selected_dept_text` recorded, nothing deeper chosen yet). -/
def selSt1 (t : FormTree) (a : Args) : SelState :=
  ⟨some (a.dept, t.departments.getD a.dept ""), none, none, none, none⟩

/-- Selection State after the city click succeeded. -/
def selSt2 (t : FormTree) (a : Args) : SelState :=
  { selSt1 t a with city := some (a.city, (t.cities a.dept).getD a.city "") }

/-- Selection State after the entity click succeeded. -/
def selSt3 (t : FormTree) (a : Args) : SelState :=
  { selSt2 t a with entity := some (a.entity, (t.entities a.dept a.city).getD a.entity "") }

/-- Selection State after the specialty click succeeded. -/
def selSt4 (t : FormTree) (a : Args) : SelState :=
  { selSt3 t a with
    specialty := some (a.specialty, (t.specialties a.dept a.city a.entity).getD a.specialty "") }

/-- Selection State after the office click succeeded: the complete path. -/
def selSt5 (t : FormTree) (a : Args) : SelState :=
  { selSt4 t a with
    office := some (a.office, (t.offices a.dept a.city a.entity a.specialty).getD a.office "") }

/-- One invocation of `handle_select_chain` (source lines 207-515), with the
five dropdown reads given by `t` and the five option-click fault flags by
`f`.  Branches, in source order:
* `len(departments) <= 1` → return (line 252);
* `department_index >= len(departments)` → return (line 256);
* department click raises → recurse `(d+1, c, e, s, o)` (line 269);
* `len(cities) <= 1` → recurse `(d+1, c, e, s, o)` (line 302);
* `city_index >= len(cities)` → recurse `(d+1, 1, 1, 1, 1)` (line 308);
* city click raises → recurse `(d, c+1, 1, 1, 1)` (line 322);
* entity list short or exhausted → recurse `(d, c+1, 1, 1, 1)` (lines 354, 360);
* entity click raises → recurse `(d, c, e+1, 1, 1)` (line 374);
* specialty list short or exhausted → recurse `(d, c, e+1, 1, 1)` (lines 409, 415);
* specialty click raises → recurse `(d, c, e, s+1, 1)` (line 429);
* office list short or exhausted → recurse `(d, c, e, s+1, 1)` (lines 464, 470);
* office click raises → recurse `(d, c, e, s, o+1)` (line 484);
* otherwise search and recurse `(d, c, e, s, o+1)` (lines 506, 515).

The invocation is split here into one function per level section, each
returning the events it emits and the tail call's arguments; the office
section (source lines 434-515) is the innermost. -/
def office_step (t : FormTree) (f : Faults) (a : Args) : StepOut :=
  if (t.offices a.dept a.city a.entity a.specialty).length ≤ 1 then
    ⟨[], some ⟨a.dept, a.city, a.entity, a.specialty + 1, 1⟩⟩
  else if (t.offices a.dept a.city a.entity a.specialty).length ≤ a.office then
    ⟨[], some ⟨a.dept, a.city, a.entity, a.specialty + 1, 1⟩⟩
  else if f.office then ⟨[], some ⟨a.dept, a.city, a.entity, a.specialty, a.office + 1⟩⟩
  else ⟨[.sel (selSt5 t a), .search a], some ⟨a.dept, a.city, a.entity, a.specialty, a.office + 1⟩⟩

/-- The specialty section (source lines 379-430) followed by the rest of the
invocation. -/
def specialty_step (t : FormTree) (f : Faults) (a : Args) : StepOut :=
  if (t.specialties a.dept a.city a.entity).length ≤ 1 then
    ⟨[], some ⟨a.dept, a.city, a.entity + 1, 1, 1⟩⟩
  else if (t.specialties a.dept a.city a.entity).length ≤ a.specialty then
    ⟨[], some ⟨a.dept, a.city, a.entity + 1, 1, 1⟩⟩
  else if f.specialty then ⟨[], some ⟨a.dept, a.city, a.entity, a.specialty + 1, 1⟩⟩
  else ⟨.sel (selSt4 t a) :: (office_step t f a).events, (office_step t f a).next⟩

/-- The entity section (source lines 324-375) followed by the rest of the
invocation. -/
def entity_step (t : FormTree) (f : Faults) (a : Args) : StepOut :=
  if (t.entities a.dept a.city).length ≤ 1 then ⟨[], some ⟨a.dept, a.city + 1, 1, 1, 1⟩⟩
  else if (t.entities a.dept a.city).length ≤ a.entity then
    ⟨[], some ⟨a.dept, a.city + 1, 1, 1, 1⟩⟩
  else if f.entity then ⟨[], some ⟨a.dept, a.city, a.entity + 1, 1, 1⟩⟩
  else ⟨.sel (selSt3 t a) :: (specialty_step t f a).events, (specialty_step t f a).next⟩

/-- The city section (source lines 272-323) followed by the rest of the
invocation.  Note the first branch (line 302) passes the incoming city and
deeper indices through unchanged, while the second (line 308) resets them. -/
def city_step (t : FormTree) (f : Faults) (a : Args) : StepOut :=
  if (t.cities a.dept).length ≤ 1 then
    ⟨[], some ⟨a.dept + 1, a.city, a.entity, a.specialty, a.office⟩⟩
  else if (t.cities a.dept).length ≤ a.city then ⟨[], some ⟨a.dept + 1, 1, 1, 1, 1⟩⟩
  else if f.city then ⟨[], some ⟨a.dept, a.city + 1, 1, 1, 1⟩⟩
  else ⟨.sel (selSt2 t a) :: (entity_step t f a).events, (entity_step t f a).next⟩

def select_chain_step (t : FormTree) (f : Faults) (a : Args) : StepOut :=
  if t.departments.length ≤ 1 then ⟨[], none⟩
  else if t.departments.length ≤ a.dept then ⟨[], none⟩
  else if f.dept then ⟨[], some ⟨a.dept + 1, a.city, a.entity, a.specialty, a.office⟩⟩
  else ⟨.sel (selSt1 t a) :: (city_step t f a).events, (city_step t f a).next⟩

/-- The lexicographic termination measure of the recursion: how many options
remain at each level at and after the current indices. -/
def chainMeasure (t : FormTree) (a : Args) : Nat × Nat × Nat × Nat × Nat :=
  (t.departments.length - a.dept,
   (t.cities a.dept).length - a.city,
   (t.entities a.dept a.city).length - a.entity,
   (t.specialties a.dept a.city a.entity).length - a.specialty,
   (t.offices a.dept a.city a.entity a.specialty).length - a.office)

@[simp] theorem StepOut.next_mk (e : List Ev) (n : Option Args) : (StepOut.mk e n).next = n := rfl

@[simp] theorem StepOut.events_mk (e : List Ev) (n : Option Args) :
    (StepOut.mk e n).events = e := rfl

@[simp] theorem Args.mk_dept (d c e s o : Nat) : (Args.mk d c e s o).dept = d := rfl

@[simp] theorem Args.mk_city (d c e s o : Nat) : (Args.mk d c e s o).city = c := rfl

@[simp] theorem Args.mk_entity (d c e s o : Nat) : (Args.mk d c e s o).entity = e := rfl

@[simp] theorem Args.mk_specialty (d c e s o : Nat) : (Args.mk d c e s o).specialty = s := rfl

@[simp] theorem Args.mk_office (d c e s o : Nat) : (Args.mk d c e s o).office = o := rfl

/-- Lexicographic order on the measure. -/
def MeasureLt (m m' : Nat × Nat × Nat × Nat × Nat) : Prop :=
  Prod.Lex (· < ·) (Prod.Lex (· < ·) (Prod.Lex (· < ·) (Prod.Lex (· < ·) (· < ·)))) m m'

theorem mlt_1 {x1 y1 x2 y2 x3 y3 x4 y4 x5 y5 : Nat} (h : x1 < y1) :
    MeasureLt (x1, x2, x3, x4, x5) (y1, y2, y3, y4, y5) :=
  Prod.Lex.left _ _ h

theorem mlt_2 {x1 x2 y2 x3 y3 x4 y4 x5 y5 : Nat} (h : x2 < y2) :
    MeasureLt (x1, x2, x3, x4, x5) (x1, y2, y3, y4, y5) :=
  Prod.Lex.right _ (Prod.Lex.left _ _ h)

theorem mlt_3 {x1 x2 x3 y3 x4 y4 x5 y5 : Nat} (h : x3 < y3) :
    MeasureLt (x1, x2, x3, x4, x5) (x1, x2, y3, y4, y5) :=
  Prod.Lex.right _ (Prod.Lex.right _ (Prod.Lex.left _ _ h))

theorem mlt_4 {x1 x2 x3 x4 y4 x5 y5 : Nat} (h : x4 < y4) :
    MeasureLt (x1, x2, x3, x4, x5) (x1, x2, x3, y4, y5) :=
  Prod.Lex.right _ (Prod.Lex.right _ (Prod.Lex.right _ (Prod.Lex.left _ _ h)))

theorem mlt_5 {x1 x2 x3 x4 x5 y5 : Nat} (h : x5 < y5) :
    MeasureLt (x1, x2, x3, x4, x5) (x1, x2, x3, x4, y5) :=
  Prod.Lex.right _ (Prod.Lex.right _ (Prod.Lex.right _ (Prod.Lex.right _ h)))

theorem office_step_dec (t : FormTree) (f : Faults) (a a' : Args)
    (hs : a.specialty < (t.specialties a.dept a.city a.entity).length)
    (h : (office_step t f a).next = some a') :
    MeasureLt (chainMeasure t a') (chainMeasure t a) := by
  unfold office_step at h
  repeat' split at h
  all_goals simp only [StepOut.next_mk] at h
  all_goals try (simp only [Option.some.injEq] at h; subst h)
  all_goals simp only [chainMeasure, Args.mk_dept, Args.mk_city, Args.mk_entity,
    Args.mk_specialty, Args.mk_office]
  all_goals first
    | exact mlt_1 (by omega)
    | exact mlt_2 (by omega)
    | exact mlt_3 (by omega)
    | exact mlt_4 (by omega)
    | exact mlt_5 (by omega)

theorem specialty_step_dec (t : FormTree) (f : Faults) (a a' : Args)
    (he : a.entity < (t.entities a.dept a.city).length)
    (h : (specialty_step t f a).next = some a') :
    MeasureLt (chainMeasure t a') (chainMeasure t a) := by
  unfold specialty_step at h
  repeat' split at h
  all_goals simp only [StepOut.next_mk] at h
  all_goals try (simp only [Option.some.injEq] at h; subst h)
  all_goals simp only [chainMeasure, Args.mk_dept, Args.mk_city, Args.mk_entity,
    Args.mk_specialty, Args.mk_office]
  all_goals first
    | exact office_step_dec t f a a' (by omega) h
    | exact mlt_1 (by omega)
    | exact mlt_2 (by omega)
    | exact mlt_3 (by omega)
    | exact mlt_4 (by omega)
    | exact mlt_5 (by omega)

theorem entity_step_dec (t : FormTree) (f : Faults) (a a' : Args)
    (hc : a.city < (t.cities a.dept).length)
    (h : (entity_step t f a).next = some a') :
    MeasureLt (chainMeasure t a') (chainMeasure t a) := by
  unfold entity_step at h
  repeat' split at h
  all_goals simp only [StepOut.next_mk] at h
  all_goals try (simp only [Option.some.injEq] at h; subst h)
  all_goals simp only [chainMeasure, Args.mk_dept, Args.mk_city, Args.mk_entity,
    Args.mk_specialty, Args.mk_office]
  all_goals first
    | exact specialty_step_dec t f a a' (by omega) h
    | exact mlt_1 (by omega)
    | exact mlt_2 (by omega)
    | exact mlt_3 (by omega)
    | exact mlt_4 (by omega)
    | exact mlt_5 (by omega)

theorem city_step_dec (t : FormTree) (f : Faults) (a a' : Args)
    (hd : a.dept < t.departments.length)
    (h : (city_step t f a).next = some a') :
    MeasureLt (chainMeasure t a') (chainMeasure t a) := by
  unfold city_step at h
  repeat' split at h
  all_goals simp only [StepOut.next_mk] at h
  all_goals try (simp only [Option.some.injEq] at h; subst h)
  all_goals simp only [chainMeasure, Args.mk_dept, Args.mk_city, Args.mk_entity,
    Args.mk_specialty, Args.mk_office]
  all_goals first
    | exact entity_step_dec t f a a' (by omega) h
    | exact mlt_1 (by omega)
    | exact mlt_2 (by omega)
    | exact mlt_3 (by omega)
    | exact mlt_4 (by omega)
    | exact mlt_5 (by omega)

theorem select_chain_step_dec (t : FormTree) (f : Faults) (a a' : Args)
    (h : (select_chain_step t f a).next = some a') :
    MeasureLt (chainMeasure t a') (chainMeasure t a) := by
  unfold select_chain_step at h
  repeat' split at h
  all_goals simp only [StepOut.next_mk] at h
  all_goals try (simp only [Option.some.injEq] at h; subst h)
  all_goals simp only [chainMeasure, Args.mk_dept, Args.mk_city, Args.mk_entity,
    Args.mk_specialty, Args.mk_office]
  all_goals first
    | exact city_step_dec t f a a' (by omega) h
    | exact Option.noConfusion h
    | exact mlt_1 (by omega)
    | exact mlt_2 (by omega)
    | exact mlt_3 (by omega)
    | exact mlt_4 (by omega)
    | exact mlt_5 (by omega)

/-- The full recursion of `handle_select_chain` from argument tuple `a`,
returning the traversal's events in order.  `flt` gives, for each argument
tuple, which option clicks raise during that invocation. -/
def handle_select_chain (t : FormTree) (flt : Args → Faults) (a : Args) : List Ev :=
  match h : select_chain_step t (flt a) a with
  | ⟨evs, none⟩ => evs
  | ⟨evs, some a'⟩ => evs ++ handle_select_chain t flt a'
termination_by chainMeasure t a
decreasing_by
  simp_wf
  exact select_chain_step_dec t (flt a) a a' (by rw [h])

/-- The search events among the traversal's events. -/
def evSearch : Ev → Option Args
  | .search a => some a
  | .sel _ => none

@[simp] theorem evSearch_sel (st : SelState) : evSearch (.sel st) = none := rfl

@[simp] theorem evSearch_search (a : Args) : evSearch (.search a) = some a := rfl

/-- The searched argument tuples of the traversal, in order: one entry per
click of the search button (`handle_search_results` call sites). -/
def chainSearches (t : FormTree) (flt : Args → Faults) (a : Args) : List Args :=
  (handle_select_chain t flt a).filterMap evSearch

/-! ### Branch characterizations of one invocation -/

theorem handle_chain_of_none (t : FormTree) (flt : Args → Faults) (a : Args)
    (h : (select_chain_step t (flt a) a).next = none) :
    handle_select_chain t flt a = (select_chain_step t (flt a) a).events := by
  unfold handle_select_chain
  split
  · next evs heq => rw [heq]
  · next evs a' heq => rw [heq] at h; exact absurd h (by simp)

theorem handle_chain_of_some (t : FormTree) (flt : Args → Faults) (a a' : Args)
    (h : (select_chain_step t (flt a) a).next = some a') :
    handle_select_chain t flt a =
      (select_chain_step t (flt a) a).events ++ handle_select_chain t flt a' := by
  conv_lhs => unfold handle_select_chain
  split
  · next evs heq => rw [heq] at h; exact absurd h (by simp)
  · next evs b heq =>
      rw [heq] at h
      simp only [StepOut.next_mk, Option.some.injEq] at h
      rw [h, heq]

theorem select_chain_term_empty (t : FormTree) (f : Faults) (a : Args)
    (h : t.departments.length ≤ 1) : select_chain_step t f a = ⟨[], none⟩ := by
  unfold select_chain_step
  rw [if_pos h]

theorem select_chain_term_done (t : FormTree) (f : Faults) (a : Args)
    (h1 : 1 < t.departments.length) (h2 : t.departments.length ≤ a.dept) :
    select_chain_step t f a = ⟨[], none⟩ := by
  unfold select_chain_step
  rw [if_neg (by omega), if_pos h2]

theorem select_chain_dept_fault (t : FormTree) (f : Faults) (a : Args)
    (h1 : 1 < t.departments.length) (h2 : a.dept < t.departments.length)
    (h3 : f.dept = true) :
    select_chain_step t f a =
      ⟨[], some ⟨a.dept + 1, a.city, a.entity, a.specialty, a.office⟩⟩ := by
  unfold select_chain_step
  rw [if_neg (by omega), if_neg (by omega), if_pos h3]

theorem select_chain_delegate (t : FormTree) (f : Faults) (a : Args)
    (h1 : 1 < t.departments.length) (h2 : a.dept < t.departments.length)
    (h3 : f.dept = false) :
    select_chain_step t f a =
      ⟨.sel (selSt1 t a) :: (city_step t f a).events, (city_step t f a).next⟩ := by
  unfold select_chain_step
  rw [if_neg (by omega), if_neg (by omega), if_neg (by simp [h3])]

theorem city_step_empty (t : FormTree) (f : Faults) (a : Args)
    (h : (t.cities a.dept).length ≤ 1) :
    city_step t f a = ⟨[], some ⟨a.dept + 1, a.city, a.entity, a.specialty, a.office⟩⟩ := by
  unfold city_step
  rw [if_pos h]

theorem city_step_exhausted (t : FormTree) (f : Faults) (a : Args)
    (h1 : 1 < (t.cities a.dept).length) (h2 : (t.cities a.dept).length ≤ a.city) :
    city_step t f a = ⟨[], some ⟨a.dept + 1, 1, 1, 1, 1⟩⟩ := by
  unfold city_step
  rw [if_neg (by omega), if_pos h2]

theorem city_step_fault (t : FormTree) (f : Faults) (a : Args)
    (h1 : 1 < (t.cities a.dept).length) (h2 : a.city < (t.cities a.dept).length)
    (h3 : f.city = true) :
    city_step t f a = ⟨[], some ⟨a.dept, a.city + 1, 1, 1, 1⟩⟩ := by
  unfold city_step
  rw [if_neg (by omega), if_neg (by omega), if_pos h3]

theorem city_step_delegate (t : FormTree) (f : Faults) (a : Args)
    (h1 : 1 < (t.cities a.dept).length) (h2 : a.city < (t.cities a.dept).length)
    (h3 : f.city = false) :
    city_step t f a =
      ⟨.sel (selSt2 t a) :: (entity_step t f a).events, (entity_step t f a).next⟩ := by
  unfold city_step
  rw [if_neg (by omega), if_neg (by omega), if_neg (by simp [h3])]

theorem entity_step_exhausted (t : FormTree) (f : Faults) (a : Args)
    (h : (t.entities a.dept a.city).length ≤ 1 ∨ (t.entities a.dept a.city).length ≤ a.entity) :
    entity_step t f a = ⟨[], some ⟨a.dept, a.city + 1, 1, 1, 1⟩⟩ := by
  unfold entity_step
  rcases h with h | h
  · rw [if_pos h]
  · by_cases h1 : (t.entities a.dept a.city).length ≤ 1
    · rw [if_pos h1]
    · rw [if_neg h1, if_pos h]

theorem entity_step_fault (t : FormTree) (f : Faults) (a : Args)
    (h1 : 1 < (t.entities a.dept a.city).length)
    (h2 : a.entity < (t.entities a.dept a.city).length) (h3 : f.entity = true) :
    entity_step t f a = ⟨[], some ⟨a.dept, a.city, a.entity + 1, 1, 1⟩⟩ := by
  unfold entity_step
  rw [if_neg (by omega), if_neg (by omega), if_pos h3]

theorem entity_step_delegate (t : FormTree) (f : Faults) (a : Args)
    (h1 : 1 < (t.entities a.dept a.city).length)
    (h2 : a.entity < (t.entities a.dept a.city).length) (h3 : f.entity = false) :
    entity_step t f a =
      ⟨.sel (selSt3 t a) :: (specialty_step t f a).events, (specialty_step t f a).next⟩ := by
  unfold entity_step
  rw [if_neg (by omega), if_neg (by omega), if_neg (by simp [h3])]

theorem specialty_step_exhausted (t : FormTree) (f : Faults) (a : Args)
    (h : (t.specialties a.dept a.city a.entity).length ≤ 1 ∨
      (t.specialties a.dept a.city a.entity).length ≤ a.specialty) :
    specialty_step t f a = ⟨[], some ⟨a.dept, a.city, a.entity + 1, 1, 1⟩⟩ := by
  unfold specialty_step
  rcases h with h | h
  · rw [if_pos h]
  · by_cases h1 : (t.specialties a.dept a.city a.entity).length ≤ 1
    · rw [if_pos h1]
    · rw [if_neg h1, if_pos h]

theorem specialty_step_fault (t : FormTree) (f : Faults) (a : Args)
    (h1 : 1 < (t.specialties a.dept a.city a.entity).length)
    (h2 : a.specialty < (t.specialties a.dept a.city a.entity).length)
    (h3 : f.specialty = true) :
    specialty_step t f a = ⟨[], some ⟨a.dept, a.city, a.entity, a.specialty + 1, 1⟩⟩ := by
  unfold specialty_step
  rw [if_neg (by omega), if_neg (by omega), if_pos h3]

theorem specialty_step_delegate (t : FormTree) (f : Faults) (a : Args)
    (h1 : 1 < (t.specialties a.dept a.city a.entity).length)
    (h2 : a.specialty < (t.specialties a.dept a.city a.entity).length)
    (h3 : f.specialty = false) :
    specialty_step t f a =
      ⟨.sel (selSt4 t a) :: (office_step t f a).events, (office_step t f a).next⟩ := by
  unfold specialty_step
  rw [if_neg (by omega), if_neg (by omega), if_neg (by simp [h3])]

theorem office_step_exhausted (t : FormTree) (f : Faults) (a : Args)
    (h : (t.offices a.dept a.city a.entity a.specialty).length ≤ 1 ∨
      (t.offices a.dept a.city a.entity a.specialty).length ≤ a.office) :
    office_step t f a = ⟨[], some ⟨a.dept, a.city, a.entity, a.specialty + 1, 1⟩⟩ := by
  unfold office_step
  rcases h with h | h
  · rw [if_pos h]
  · by_cases h1 : (t.offices a.dept a.city a.entity a.specialty).length ≤ 1
    · rw [if_pos h1]
    · rw [if_neg h1, if_pos h]

theorem office_step_fault (t : FormTree) (f : Faults) (a : Args)
    (h1 : 1 < (t.offices a.dept a.city a.entity a.specialty).length)
    (h2 : a.office < (t.offices a.dept a.city a.entity a.specialty).length)
    (h3 : f.office = true) :
    office_step t f a = ⟨[], some ⟨a.dept, a.city, a.entity, a.specialty, a.office + 1⟩⟩ := by
  unfold office_step
  rw [if_neg (by omega), if_neg (by omega), if_pos h3]

theorem office_step_search (t : FormTree) (f : Faults) (a : Args)
    (h1 : 1 < (t.offices a.dept a.city a.entity a.specialty).length)
    (h2 : a.office < (t.offices a.dept a.city a.entity a.specialty).length)
    (h3 : f.office = false) :
    office_step t f a =
      ⟨[.sel (selSt5 t a), .search a],
        some ⟨a.dept, a.city, a.entity, a.specialty, a.office + 1⟩⟩ := by
  unfold office_step
  rw [if_neg (by omega), if_neg (by omega), if_neg (by simp [h3])]

/-! ### Reaching each level section of one invocation -/

/-- The invocation got past the department section: options exist, the index
is in range, and the department click did not raise. -/
abbrev reachedCity (t : FormTree) (f : Faults) (a : Args) : Prop :=
  1 < t.departments.length ∧ a.dept < t.departments.length ∧ f.dept = false

/-- The invocation got past the city section as well. -/
abbrev reachedEntity (t : FormTree) (f : Faults) (a : Args) : Prop :=
  reachedCity t f a ∧ 1 < (t.cities a.dept).length ∧
    a.city < (t.cities a.dept).length ∧ f.city = false

/-- The invocation got past the entity section as well. -/
abbrev reachedSpecialty (t : FormTree) (f : Faults) (a : Args) : Prop :=
  reachedEntity t f a ∧ 1 < (t.entities a.dept a.city).length ∧
    a.entity < (t.entities a.dept a.city).length ∧ f.entity = false

/-- The invocation got past the specialty section as well. -/
abbrev reachedOffice (t : FormTree) (f : Faults) (a : Args) : Prop :=
  reachedSpecialty t f a ∧ 1 < (t.specialties a.dept a.city a.entity).length ∧
    a.specialty < (t.specialties a.dept a.city a.entity).length ∧ f.specialty = false

/-- A small concrete form tree used by witnesses: 2 real departments, 2 real
cities, 1 real entity, 1 real specialty, 1 real office (index 0 of each list
is the placeholder). -/
def exTree : FormTree :=
  ⟨["ph", "A", "B"], fun _ => ["ph", "c1", "c2"], fun _ _ => ["ph", "e1"],
    fun _ _ _ => ["ph", "s1"], fun _ _ _ _ => ["ph", "o1"]⟩

/-- A concrete form tree whose department 1 has no city options at all
(only the placeholder). -/
def exTreeNoCities : FormTree :=
  ⟨["ph", "A", "B"], fun _ => ["ph"], fun _ _ => ["ph", "e1"],
    fun _ _ _ => ["ph", "s1"], fun _ _ _ _ => ["ph", "o1"]⟩

/-- C2: the exhaustion transitions of `handle_select_chain`, as the code
makes them.  When a level's attempt index passes the last real option the
next invocation is at the previous level with its chosen index plus one and
all deeper indices reset to 1; when a level's option list has at most the
placeholder the same holds for the entity, specialty and office levels —
but for the CITY level (source line 302) the current city, entity,
specialty and office indices are passed through unchanged instead of being
reset. -/
theorem C2_exhaustion_backtracks (t : FormTree) (f : Faults) (a : Args) :
    (reachedCity t f a → (t.cities a.dept).length ≤ 1 →
      (select_chain_step t f a).next =
        some ⟨a.dept + 1, a.city, a.entity, a.specialty, a.office⟩)
    ∧ (reachedCity t f a → 1 < (t.cities a.dept).length →
        (t.cities a.dept).length ≤ a.city →
        (select_chain_step t f a).next = some ⟨a.dept + 1, 1, 1, 1, 1⟩)
    ∧ (reachedEntity t f a →
        (t.entities a.dept a.city).length ≤ 1 ∨
          (t.entities a.dept a.city).length ≤ a.entity →
        (select_chain_step t f a).next = some ⟨a.dept, a.city + 1, 1, 1, 1⟩)
    ∧ (reachedSpecialty t f a →
        (t.specialties a.dept a.city a.entity).length ≤ 1 ∨
          (t.specialties a.dept a.city a.entity).length ≤ a.specialty →
        (select_chain_step t f a).next = some ⟨a.dept, a.city, a.entity + 1, 1, 1⟩)
    ∧ (reachedOffice t f a →
        (t.offices a.dept a.city a.entity a.specialty).length ≤ 1 ∨
          (t.offices a.dept a.city a.entity a.specialty).length ≤ a.office →
        (select_chain_step t f a).next =
          some ⟨a.dept, a.city, a.entity, a.specialty + 1, 1⟩) := by
  refine ⟨?_, ?_, ?_, ?_, ?_⟩
  · rintro ⟨h1, h2, h3⟩ hc
    rw [select_chain_delegate t f a h1 h2 h3, city_step_empty t f a hc]
  · rintro ⟨h1, h2, h3⟩ hc1 hc2
    rw [select_chain_delegate t f a h1 h2 h3, city_step_exhausted t f a hc1 hc2]
  · rintro ⟨⟨h1, h2, h3⟩, h4, h5, h6⟩ he
    rw [select_chain_delegate t f a h1 h2 h3, city_step_delegate t f a h4 h5 h6,
      entity_step_exhausted t f a he]
  · rintro ⟨⟨⟨h1, h2, h3⟩, h4, h5, h6⟩, h7, h8, h9⟩ hs
    rw [select_chain_delegate t f a h1 h2 h3, city_step_delegate t f a h4 h5 h6,
      entity_step_delegate t f a h7 h8 h9, specialty_step_exhausted t f a hs]
  · rintro ⟨⟨⟨⟨h1, h2, h3⟩, h4, h5, h6⟩, h7, h8, h9⟩, h10, h11, h12⟩ ho
    rw [select_chain_delegate t f a h1 h2 h3, city_step_delegate t f a h4 h5 h6,
      entity_step_delegate t f a h7 h8 h9, specialty_step_delegate t f a h10 h11 h12,
      office_step_exhausted t f a ho]

/-- Witness for C2: on `exTree` with city index 3 past the 2 real cities of
department 1, the next invocation is `(2, 1, 1, 1, 1)`. -/
theorem C2_exhaustion_backtracks_witness :
    (select_chain_step exTree ⟨false, false, false, false, false⟩ ⟨1, 3, 1, 1, 1⟩).next =
      some ⟨2, 1, 1, 1, 1⟩ :=
  (C2_exhaustion_backtracks exTree ⟨false, false, false, false, false⟩
    ⟨1, 3, 1, 1, 1⟩).2.1 (by decide) (by decide) (by decide)

/-- A form tree with three real departments of which department 2 has no
city options, two real offices, and one real option elsewhere. -/
def exTreeC2 : FormTree :=
  ⟨["ph", "A", "B", "C"], fun d => if d = 2 then ["ph"] else ["ph", "c1"],
    fun _ _ => ["ph", "e1"], fun _ _ _ => ["ph", "s1"], fun _ _ _ _ => ["ph", "o1", "o2"]⟩

/-- A fault schedule with a single department-click fault, at the
invocation whose department index is 1 and office index 2. -/
def deptFaultC2 : Args → Faults :=
  fun a => ⟨a.dept == 1 && a.office == 2, false, false, false, false⟩

/-- Counterexample to C2 as stated: on `exTreeNoCities` at arguments
`(1, 2, 3, 1, 1)` the city level is exhausted (its list has only the
placeholder), and the next invocation is `(2, 2, 3, 1, 1)` — the city and
entity indices are passed through, not reset to 1 as the claim requires
(which would be `(2, 1, 1, 1, 1)`).  Such stale tuples are reachable: on
`exTreeC2`, a single department-click fault at `(1, 1, 1, 1, 2)` makes the
traversal recurse to `(2, 1, 1, 1, 2)`, department 2's empty city list then
passes the stale office index 2 on to department 3, and the combination
`(3, 1, 1, 1, 1)` — never touched by any fault — is silently skipped, while
the fault-free traversal searches it. -/
theorem C2_counterexample_city_empty_no_reset :
    ((exTreeNoCities.cities 1).length ≤ 1 ∧
    (select_chain_step exTreeNoCities ⟨false, false, false, false, false⟩
        ⟨1, 2, 3, 1, 1⟩).next = some ⟨2, 2, 3, 1, 1⟩ ∧
    (select_chain_step exTreeNoCities ⟨false, false, false, false, false⟩
        ⟨1, 2, 3, 1, 1⟩).next ≠ some ⟨2, 1, 1, 1, 1⟩) ∧
    chainSearches exTreeC2 deptFaultC2 chainStart =
      [⟨1, 1, 1, 1, 1⟩, ⟨3, 1, 1, 1, 2⟩] ∧
    chainSearches exTreeC2 noFaults chainStart =
      [⟨1, 1, 1, 1, 1⟩, ⟨1, 1, 1, 1, 2⟩, ⟨3, 1, 1, 1, 1⟩, ⟨3, 1, 1, 1, 2⟩] := by
  refine ⟨⟨by decide, by decide, by decide⟩, ?_, ?_⟩
  · simp [chainSearches, handle_select_chain, select_chain_step, city_step, entity_step,
      specialty_step, office_step, deptFaultC2, chainStart, exTreeC2, evSearch]
  · simp [chainSearches, handle_select_chain, select_chain_step, city_step, entity_step,
      specialty_step, office_step, noFaults, chainStart, exTreeC2, evSearch]

/-- A concrete form tree with exactly one real option at every level. -/
def exTreeOne : FormTree :=
  ⟨["ph", "A"], fun _ => ["ph", "c1"], fun _ _ => ["ph", "e1"],
    fun _ _ _ => ["ph", "s1"], fun _ _ _ _ => ["ph", "o1"]⟩

/-- A fault schedule that makes the department click raise whenever the
department index is 1, and nothing else raise. -/
def deptFaultAtOne : Args → Faults :=
  fun a => ⟨a.dept == 1, false, false, false, false⟩

/-- C5: the recovery transitions of `handle_select_chain` on a caught
option-click fault (staleness or any other raise), as the code makes them:
the next invocation is at the same level with the index advanced by one —
the failed combination's subtree is skipped, not retried — with deeper
indices passed unchanged for a department fault and reset to 1 for a city,
entity or specialty fault; no search happens in the faulted invocation. -/
theorem C5_click_fault_advances (t : FormTree) (f : Faults) (a : Args) :
    (1 < t.departments.length → a.dept < t.departments.length → f.dept = true →
      (select_chain_step t f a).next =
          some ⟨a.dept + 1, a.city, a.entity, a.specialty, a.office⟩
        ∧ ∀ x, Ev.search x ∉ (select_chain_step t f a).events)
    ∧ (reachedCity t f a → 1 < (t.cities a.dept).length →
        a.city < (t.cities a.dept).length → f.city = true →
        (select_chain_step t f a).next = some ⟨a.dept, a.city + 1, 1, 1, 1⟩
          ∧ ∀ x, Ev.search x ∉ (select_chain_step t f a).events)
    ∧ (reachedEntity t f a → 1 < (t.entities a.dept a.city).length →
        a.entity < (t.entities a.dept a.city).length → f.entity = true →
        (select_chain_step t f a).next = some ⟨a.dept, a.city, a.entity + 1, 1, 1⟩
          ∧ ∀ x, Ev.search x ∉ (select_chain_step t f a).events)
    ∧ (reachedSpecialty t f a → 1 < (t.specialties a.dept a.city a.entity).length →
        a.specialty < (t.specialties a.dept a.city a.entity).length → f.specialty = true →
        (select_chain_step t f a).next =
            some ⟨a.dept, a.city, a.entity, a.specialty + 1, 1⟩
          ∧ ∀ x, Ev.search x ∉ (select_chain_step t f a).events)
    ∧ (reachedOffice t f a → 1 < (t.offices a.dept a.city a.entity a.specialty).length →
        a.office < (t.offices a.dept a.city a.entity a.specialty).length → f.office = true →
        (select_chain_step t f a).next =
            some ⟨a.dept, a.city, a.entity, a.specialty, a.office + 1⟩
          ∧ ∀ x, Ev.search x ∉ (select_chain_step t f a).events) := by
  refine ⟨?_, ?_, ?_, ?_, ?_⟩
  · intro h1 h2 h3
    rw [select_chain_dept_fault t f a h1 h2 h3]
    exact ⟨rfl, by simp⟩
  · rintro ⟨h1, h2, h3⟩ h4 h5 h6
    rw [select_chain_delegate t f a h1 h2 h3, city_step_fault t f a h4 h5 h6]
    exact ⟨rfl, by simp⟩
  · rintro ⟨⟨h1, h2, h3⟩, h4, h5, h6⟩ h7 h8 h9
    rw [select_chain_delegate t f a h1 h2 h3, city_step_delegate t f a h4 h5 h6,
      entity_step_fault t f a h7 h8 h9]
    exact ⟨rfl, by simp⟩
  · rintro ⟨⟨⟨h1, h2, h3⟩, h4, h5, h6⟩, h7, h8, h9⟩ h10 h11 h12
    rw [select_chain_delegate t f a h1 h2 h3, city_step_delegate t f a h4 h5 h6,
      entity_step_delegate t f a h7 h8 h9, specialty_step_fault t f a h10 h11 h12]
    exact ⟨rfl, by simp⟩
  · rintro ⟨⟨⟨⟨h1, h2, h3⟩, h4, h5, h6⟩, h7, h8, h9⟩, h10, h11, h12⟩ h13 h14 h15
    rw [select_chain_delegate t f a h1 h2 h3, city_step_delegate t f a h4 h5 h6,
      entity_step_delegate t f a h7 h8 h9, specialty_step_delegate t f a h10 h11 h12,
      office_step_fault t f a h13 h14 h15]
    exact ⟨rfl, by simp⟩

/-- Witness for C5: on `exTree`, a city-click fault at `(1, 1, 1, 1, 1)`
makes the next invocation `(1, 2, 1, 1, 1)`. -/
theorem C5_click_fault_advances_witness :
    (select_chain_step exTree ⟨false, true, false, false, false⟩ chainStart).next =
      some ⟨1, 2, 1, 1, 1⟩ :=
  ((C5_click_fault_advances exTree ⟨false, true, false, false, false⟩ chainStart).2.1
    (by decide) (by decide) (by decide) (by decide)).1

/-- Counterexample to C5 as stated: on `exTreeOne` (one real option per
level), a department-click fault at the start makes the next invocation
`(2, 1, 1, 1, 1)` — the same level with the index advanced, not the same
index again — and the full traversal under that one fault performs no
search at all, while the fault-free traversal searches `(1, 1, 1, 1, 1)`:
the combination is silently skipped. -/
theorem C5_counterexample_fault_skips_combination :
    (select_chain_step exTreeOne ⟨true, false, false, false, false⟩ chainStart).next =
        some ⟨2, 1, 1, 1, 1⟩
    ∧ chainSearches exTreeOne deptFaultAtOne chainStart = []
    ∧ chainSearches exTreeOne noFaults chainStart = [⟨1, 1, 1, 1, 1⟩] := by
  refine ⟨by decide, ?_, ?_⟩
  · simp [chainSearches, handle_select_chain, select_chain_step, city_step, entity_step,
      specialty_step, office_step, deptFaultAtOne, chainStart, exTreeOne, evSearch]
  · simp [chainSearches, handle_select_chain, select_chain_step, city_step, entity_step,
      specialty_step, office_step, noFaults, chainStart, exTreeOne, selSt1, selSt2,
      selSt3, selSt4, selSt5, evSearch]

/-! ### The no-orphan invariant of Selection State (C9) -/

/-- No orphan selection: a level holds a chosen option only if the previous
level does. -/
def noOrphan (st : SelState) : Prop :=
  (st.city ≠ none → st.dept ≠ none) ∧ (st.entity ≠ none → st.city ≠ none) ∧
    (st.specialty ≠ none → st.entity ≠ none) ∧ (st.office ≠ none → st.specialty ≠ none)

theorem office_step_sel (t : FormTree) (f : Faults) (a : Args) (st : SelState)
    (h : Ev.sel st ∈ (office_step t f a).events) : st = selSt5 t a := by
  unfold office_step at h
  repeat' split at h
  all_goals simp_all

theorem specialty_step_sel (t : FormTree) (f : Faults) (a : Args) (st : SelState)
    (h : Ev.sel st ∈ (specialty_step t f a).events) :
    st = selSt4 t a ∨ Ev.sel st ∈ (office_step t f a).events := by
  unfold specialty_step at h
  repeat' split at h
  all_goals simp_all

theorem entity_step_sel (t : FormTree) (f : Faults) (a : Args) (st : SelState)
    (h : Ev.sel st ∈ (entity_step t f a).events) :
    st = selSt3 t a ∨ Ev.sel st ∈ (specialty_step t f a).events := by
  unfold entity_step at h
  repeat' split at h
  all_goals simp_all

theorem city_step_sel (t : FormTree) (f : Faults) (a : Args) (st : SelState)
    (h : Ev.sel st ∈ (city_step t f a).events) :
    st = selSt2 t a ∨ Ev.sel st ∈ (entity_step t f a).events := by
  unfold city_step at h
  repeat' split at h
  all_goals simp_all

theorem select_chain_step_sel (t : FormTree) (f : Faults) (a : Args) (st : SelState)
    (h : Ev.sel st ∈ (select_chain_step t f a).events) :
    st = selSt1 t a ∨ st = selSt2 t a ∨ st = selSt3 t a ∨ st = selSt4 t a ∨
      st = selSt5 t a := by
  unfold select_chain_step at h
  repeat' split at h
  all_goals simp only [StepOut.events_mk, List.mem_cons, List.not_mem_nil] at h
  rcases h with h | h
  · exact Or.inl (by simpa using h)
  · rcases city_step_sel t f a st h with h | h
    · exact Or.inr (Or.inl h)
    · rcases entity_step_sel t f a st h with h | h
      · exact Or.inr (Or.inr (Or.inl h))
      · rcases specialty_step_sel t f a st h with h | h
        · exact Or.inr (Or.inr (Or.inr (Or.inl h)))
        · exact Or.inr (Or.inr (Or.inr (Or.inr (office_step_sel t f a st h))))

theorem selSt_noOrphan (t : FormTree) (a : Args) :
    noOrphan (selSt1 t a) ∧ noOrphan (selSt2 t a) ∧ noOrphan (selSt3 t a) ∧
      noOrphan (selSt4 t a) ∧ noOrphan (selSt5 t a) := by
  simp [noOrphan, selSt1, selSt2, selSt3, selSt4, selSt5]

/-- C9: every Selection State snapshot the traversal ever records — under any
form tree, any fault schedule and any start arguments — satisfies the
no-orphan invariant: a level is chosen only when all shallower levels are. -/
theorem C9_no_orphan_selection (t : FormTree) (flt : Args → Faults) (a : Args) :
    ∀ st : SelState, Ev.sel st ∈ handle_select_chain t flt a → noOrphan st := by
  induction a using handle_select_chain.induct t flt with
  | case1 x evs heq =>
    intro st hst
    rw [handle_chain_of_none t flt x (by rw [heq])] at hst
    rcases select_chain_step_sel t (flt x) x st hst with h | h | h | h | h <;>
      · subst h
        have := selSt_noOrphan t x
        tauto
  | case2 x evs a' heq ih =>
    intro st hst
    rw [handle_chain_of_some t flt x a' (by rw [heq])] at hst
    rcases List.mem_append.mp hst with h | h
    · rcases select_chain_step_sel t (flt x) x st h with h | h | h | h | h <;>
        · subst h
          have := selSt_noOrphan t x
          tauto
    · exact ih st h

/-- Witness for C9: the snapshot after the very first department selection
on `exTreeOne` is in the traversal's events and satisfies the invariant. -/
theorem C9_no_orphan_selection_witness :
    noOrphan ⟨some (1, "A"), none, none, none, none⟩ := by
  refine C9_no_orphan_selection exTreeOne noFaults chainStart _ ?_
  rw [handle_chain_of_some exTreeOne noFaults chainStart ⟨1, 1, 1, 1, 2⟩ (by decide)]
  exact List.mem_append_left _ (by decide)

/-! ### The fault-free traversal of a uniform mock tree (C1) -/

theorem chainSearches_of_none (t : FormTree) (flt : Args → Faults) (a : Args)
    (h : (select_chain_step t (flt a) a).next = none) :
    chainSearches t flt a = (select_chain_step t (flt a) a).events.filterMap evSearch := by
  unfold chainSearches
  rw [handle_chain_of_none t flt a h]

theorem chainSearches_of_some (t : FormTree) (flt : Args → Faults) (a a' : Args)
    (h : (select_chain_step t (flt a) a).next = some a') :
    chainSearches t flt a =
      (select_chain_step t (flt a) a).events.filterMap evSearch ++ chainSearches t flt a' := by
  unfold chainSearches
  rw [handle_chain_of_some t flt a a' h, List.filterMap_append]

/-- An option list with `n` real options after the index-0 placeholder. -/
def optList (n : Nat) : List String :=
  "ph" :: (List.range n).map fun i => toString (i + 1)

@[simp] theorem optList_length (n : Nat) : (optList n).length = n + 1 := by
  simp [optList]

/-- The mock dropdown tree with branching factors `D, C, E, S, O` of real
options at the five levels. -/
def uniformTree (D C E S O : Nat) : FormTree :=
  ⟨optList D, fun _ => optList C, fun _ _ => optList E, fun _ _ _ => optList S,
    fun _ _ _ _ => optList O⟩

@[simp] theorem uniformTree_departments (D C E S O : Nat) :
    (uniformTree D C E S O).departments = optList D := rfl

@[simp] theorem uniformTree_cities (D C E S O d : Nat) :
    (uniformTree D C E S O).cities d = optList C := rfl

@[simp] theorem uniformTree_entities (D C E S O d c : Nat) :
    (uniformTree D C E S O).entities d c = optList E := rfl

@[simp] theorem uniformTree_specialties (D C E S O d c e : Nat) :
    (uniformTree D C E S O).specialties d c e = optList S := rfl

@[simp] theorem uniformTree_offices (D C E S O d c e s : Nat) :
    (uniformTree D C E S O).offices d c e s = optList O := rfl

theorem searches_uniform_search (D C E S O d c e s o : Nat)
    (hd1 : 1 ≤ d) (hd2 : d ≤ D) (hc1 : 1 ≤ c) (hc2 : c ≤ C) (he1 : 1 ≤ e) (he2 : e ≤ E)
    (hs1 : 1 ≤ s) (hs2 : s ≤ S) (ho1 : 1 ≤ o) (ho2 : o ≤ O) :
    chainSearches (uniformTree D C E S O) noFaults ⟨d, c, e, s, o⟩ =
      ⟨d, c, e, s, o⟩ :: chainSearches (uniformTree D C E S O) noFaults ⟨d, c, e, s, o + 1⟩ := by
  have hstep : select_chain_step (uniformTree D C E S O) (noFaults ⟨d, c, e, s, o⟩)
      ⟨d, c, e, s, o⟩ =
      ⟨[.sel (selSt1 (uniformTree D C E S O) ⟨d, c, e, s, o⟩),
        .sel (selSt2 (uniformTree D C E S O) ⟨d, c, e, s, o⟩),
        .sel (selSt3 (uniformTree D C E S O) ⟨d, c, e, s, o⟩),
        .sel (selSt4 (uniformTree D C E S O) ⟨d, c, e, s, o⟩),
        .sel (selSt5 (uniformTree D C E S O) ⟨d, c, e, s, o⟩),
        .search ⟨d, c, e, s, o⟩], some ⟨d, c, e, s, o + 1⟩⟩ := by
    rw [select_chain_delegate _ _ _
        (by simp only [uniformTree_departments, optList_length]; omega)
        (by simp only [uniformTree_departments, optList_length, Args.mk_dept]; omega) rfl,
      city_step_delegate _ _ _
        (by simp only [uniformTree_cities, optList_length]; omega)
        (by simp only [uniformTree_cities, optList_length, Args.mk_city]; omega) rfl,
      entity_step_delegate _ _ _
        (by simp only [uniformTree_entities, optList_length]; omega)
        (by simp only [uniformTree_entities, optList_length, Args.mk_entity]; omega) rfl,
      specialty_step_delegate _ _ _
        (by simp only [uniformTree_specialties, optList_length]; omega)
        (by simp only [uniformTree_specialties, optList_length, Args.mk_specialty]; omega) rfl,
      office_step_search _ _ _
        (by simp only [uniformTree_offices, optList_length]; omega)
        (by simp only [uniformTree_offices, optList_length, Args.mk_office]; omega) rfl]
  rw [chainSearches_of_some _ _ _ ⟨d, c, e, s, o + 1⟩ (by rw [hstep]), hstep]
  simp

theorem searches_uniform_office_exh (D C E S O d c e s o : Nat)
    (hd1 : 1 ≤ d) (hd2 : d ≤ D) (hc1 : 1 ≤ c) (hc2 : c ≤ C) (he1 : 1 ≤ e) (he2 : e ≤ E)
    (hs1 : 1 ≤ s) (hs2 : s ≤ S) (ho : o = O + 1) :
    chainSearches (uniformTree D C E S O) noFaults ⟨d, c, e, s, o⟩ =
      chainSearches (uniformTree D C E S O) noFaults ⟨d, c, e, s + 1, 1⟩ := by
  have hstep : select_chain_step (uniformTree D C E S O) (noFaults ⟨d, c, e, s, o⟩)
      ⟨d, c, e, s, o⟩ =
      ⟨[.sel (selSt1 (uniformTree D C E S O) ⟨d, c, e, s, o⟩),
        .sel (selSt2 (uniformTree D C E S O) ⟨d, c, e, s, o⟩),
        .sel (selSt3 (uniformTree D C E S O) ⟨d, c, e, s, o⟩),
        .sel (selSt4 (uniformTree D C E S O) ⟨d, c, e, s, o⟩)],
        some ⟨d, c, e, s + 1, 1⟩⟩ := by
    rw [select_chain_delegate _ _ _
        (by simp only [uniformTree_departments, optList_length]; omega)
        (by simp only [uniformTree_departments, optList_length, Args.mk_dept]; omega) rfl,
      city_step_delegate _ _ _
        (by simp only [uniformTree_cities, optList_length]; omega)
        (by simp only [uniformTree_cities, optList_length, Args.mk_city]; omega) rfl,
      entity_step_delegate _ _ _
        (by simp only [uniformTree_entities, optList_length]; omega)
        (by simp only [uniformTree_entities, optList_length, Args.mk_entity]; omega) rfl,
      specialty_step_delegate _ _ _
        (by simp only [uniformTree_specialties, optList_length]; omega)
        (by simp only [uniformTree_specialties, optList_length, Args.mk_specialty]; omega) rfl,
      office_step_exhausted _ _ _
        (Or.inr (by simp only [uniformTree_offices, optList_length, Args.mk_office]; omega))]
  rw [chainSearches_of_some _ _ _ ⟨d, c, e, s + 1, 1⟩ (by rw [hstep]), hstep]
  simp

theorem searches_uniform_specialty_exh (D C E S O d c e s : Nat)
    (hd1 : 1 ≤ d) (hd2 : d ≤ D) (hc1 : 1 ≤ c) (hc2 : c ≤ C) (he1 : 1 ≤ e) (he2 : e ≤ E)
    (hs : s = S + 1) :
    chainSearches (uniformTree D C E S O) noFaults ⟨d, c, e, s, 1⟩ =
      chainSearches (uniformTree D C E S O) noFaults ⟨d, c, e + 1, 1, 1⟩ := by
  have hstep : select_chain_step (uniformTree D C E S O) (noFaults ⟨d, c, e, s, 1⟩)
      ⟨d, c, e, s, 1⟩ =
      ⟨[.sel (selSt1 (uniformTree D C E S O) ⟨d, c, e, s, 1⟩),
        .sel (selSt2 (uniformTree D C E S O) ⟨d, c, e, s, 1⟩),
        .sel (selSt3 (uniformTree D C E S O) ⟨d, c, e, s, 1⟩)],
        some ⟨d, c, e + 1, 1, 1⟩⟩ := by
    rw [select_chain_delegate _ _ _
        (by simp only [uniformTree_departments, optList_length]; omega)
        (by simp only [uniformTree_departments, optList_length, Args.mk_dept]; omega) rfl,
      city_step_delegate _ _ _
        (by simp only [uniformTree_cities, optList_length]; omega)
        (by simp only [uniformTree_cities, optList_length, Args.mk_city]; omega) rfl,
      entity_step_delegate _ _ _
        (by simp only [uniformTree_entities, optList_length]; omega)
        (by simp only [uniformTree_entities, optList_length, Args.mk_entity]; omega) rfl,
      specialty_step_exhausted _ _ _
        (Or.inr (by simp only [uniformTree_specialties, optList_length, Args.mk_specialty]; omega))]
  rw [chainSearches_of_some _ _ _ ⟨d, c, e + 1, 1, 1⟩ (by rw [hstep]), hstep]
  simp

theorem searches_uniform_entity_exh (D C E S O d c e : Nat)
    (hd1 : 1 ≤ d) (hd2 : d ≤ D) (hc1 : 1 ≤ c) (hc2 : c ≤ C) (he : e = E + 1) :
    chainSearches (uniformTree D C E S O) noFaults ⟨d, c, e, 1, 1⟩ =
      chainSearches (uniformTree D C E S O) noFaults ⟨d, c + 1, 1, 1, 1⟩ := by
  have hstep : select_chain_step (uniformTree D C E S O) (noFaults ⟨d, c, e, 1, 1⟩)
      ⟨d, c, e, 1, 1⟩ =
      ⟨[.sel (selSt1 (uniformTree D C E S O) ⟨d, c, e, 1, 1⟩),
        .sel (selSt2 (uniformTree D C E S O) ⟨d, c, e, 1, 1⟩)],
        some ⟨d, c + 1, 1, 1, 1⟩⟩ := by
    rw [select_chain_delegate _ _ _
        (by simp only [uniformTree_departments, optList_length]; omega)
        (by simp only [uniformTree_departments, optList_length, Args.mk_dept]; omega) rfl,
      city_step_delegate _ _ _
        (by simp only [uniformTree_cities, optList_length]; omega)
        (by simp only [uniformTree_cities, optList_length, Args.mk_city]; omega) rfl,
      entity_step_exhausted _ _ _
        (Or.inr (by simp only [uniformTree_entities, optList_length, Args.mk_entity]; omega))]
  rw [chainSearches_of_some _ _ _ ⟨d, c + 1, 1, 1, 1⟩ (by rw [hstep]), hstep]
  simp

theorem searches_uniform_city_exh (D C E S O d c : Nat)
    (hd1 : 1 ≤ d) (hd2 : d ≤ D) (hc : c = C + 1) :
    chainSearches (uniformTree D C E S O) noFaults ⟨d, c, 1, 1, 1⟩ =
      chainSearches (uniformTree D C E S O) noFaults ⟨d + 1, 1, 1, 1, 1⟩ := by
  by_cases hC : C = 0
  · subst hC
    subst hc
    have hstep : select_chain_step (uniformTree D 0 E S O) (noFaults ⟨d, 1, 1, 1, 1⟩)
        ⟨d, 1, 1, 1, 1⟩ =
        ⟨[.sel (selSt1 (uniformTree D 0 E S O) ⟨d, 1, 1, 1, 1⟩)],
          some ⟨d + 1, 1, 1, 1, 1⟩⟩ := by
      rw [select_chain_delegate _ _ _
          (by simp only [uniformTree_departments, optList_length]; omega)
          (by simp only [uniformTree_departments, optList_length, Args.mk_dept]; omega) rfl,
        city_step_empty _ _ _
          (by simp only [uniformTree_cities, optList_length, Args.mk_dept]; omega)]
    rw [chainSearches_of_some _ _ _ ⟨d + 1, 1, 1, 1, 1⟩ (by rw [hstep]), hstep]
    simp
  · have hstep : select_chain_step (uniformTree D C E S O) (noFaults ⟨d, c, 1, 1, 1⟩)
        ⟨d, c, 1, 1, 1⟩ =
        ⟨[.sel (selSt1 (uniformTree D C E S O) ⟨d, c, 1, 1, 1⟩)],
          some ⟨d + 1, 1, 1, 1, 1⟩⟩ := by
      rw [select_chain_delegate _ _ _
          (by simp only [uniformTree_departments, optList_length]; omega)
          (by simp only [uniformTree_departments, optList_length, Args.mk_dept]; omega) rfl,
        city_step_exhausted _ _ _
          (by simp only [uniformTree_cities, optList_length, Args.mk_dept]; omega)
          (by simp only [uniformTree_cities, optList_length, Args.mk_city, Args.mk_dept]; omega)]
    rw [chainSearches_of_some _ _ _ ⟨d + 1, 1, 1, 1, 1⟩ (by rw [hstep]), hstep]
    simp

theorem searches_uniform_done (D C E S O d : Nat) (hd : d = D + 1) :
    chainSearches (uniformTree D C E S O) noFaults ⟨d, 1, 1, 1, 1⟩ = [] := by
  have hnone : select_chain_step (uniformTree D C E S O) (noFaults ⟨d, 1, 1, 1, 1⟩)
      ⟨d, 1, 1, 1, 1⟩ = ⟨[], none⟩ := by
    by_cases hD : D = 0
    · exact select_chain_term_empty _ _ _
        (by simp only [uniformTree_departments, optList_length]; omega)
    · exact select_chain_term_done _ _ _
        (by simp only [uniformTree_departments, optList_length]; omega)
        (by simp only [uniformTree_departments, optList_length, Args.mk_dept]; omega)
  rw [chainSearches_of_none _ _ _ (by rw [hnone]), hnone]
  simp

/-- The office-level slice of the enumeration: all combinations
`(d, c, e, s, o)` with `1 ≤ o ≤ O`, in order. -/
def officeRange (d c e s O : Nat) : List Args :=
  (List.range' 1 O).map fun o => ⟨d, c, e, s, o⟩

/-- The specialty-level slice: all `(d, c, e, s, o)` with `1 ≤ s ≤ S`,
`1 ≤ o ≤ O`, in lexicographic order. -/
def specialtyRange (d c e S O : Nat) : List Args :=
  (List.range' 1 S).flatMap fun s => officeRange d c e s O

/-- The entity-level slice of the enumeration. -/
def entityRange (d c E S O : Nat) : List Args :=
  (List.range' 1 E).flatMap fun e => specialtyRange d c e S O

/-- The city-level slice of the enumeration. -/
def cityRange (d C E S O : Nat) : List Args :=
  (List.range' 1 C).flatMap fun c => entityRange d c E S O

/-- All index combinations `(d, c, e, s, o)` with `1 ≤ d ≤ D`, …,
`1 ≤ o ≤ O`, in lexicographic order: the expected search order of the
traversal over `uniformTree D C E S O`. -/
def fullEnum (D C E S O : Nat) : List Args :=
  (List.range' 1 D).flatMap fun d => cityRange d C E S O

theorem chain_off_suffix (D C E S O d c e s : Nat)
    (hd1 : 1 ≤ d) (hd2 : d ≤ D) (hc1 : 1 ≤ c) (hc2 : c ≤ C) (he1 : 1 ≤ e) (he2 : e ≤ E)
    (hs1 : 1 ≤ s) (hs2 : s ≤ S) :
    ∀ n o, 1 ≤ o → o + n = O + 1 →
      chainSearches (uniformTree D C E S O) noFaults ⟨d, c, e, s, o⟩ =
        ((List.range' o n).map fun i => (⟨d, c, e, s, i⟩ : Args)) ++
          chainSearches (uniformTree D C E S O) noFaults ⟨d, c, e, s + 1, 1⟩ := by
  intro n
  induction n with
  | zero =>
    intro o ho1 ho2
    rw [searches_uniform_office_exh D C E S O d c e s o hd1 hd2 hc1 hc2 he1 he2 hs1 hs2
      (by omega)]
    simp
  | succ k ih =>
    intro o ho1 ho2
    rw [searches_uniform_search D C E S O d c e s o hd1 hd2 hc1 hc2 he1 he2 hs1 hs2 ho1
      (by omega), ih (o + 1) (by omega) (by omega), List.range'_succ]
    simp

theorem chain_spec_suffix (D C E S O d c e : Nat)
    (hd1 : 1 ≤ d) (hd2 : d ≤ D) (hc1 : 1 ≤ c) (hc2 : c ≤ C) (he1 : 1 ≤ e) (he2 : e ≤ E) :
    ∀ n s, 1 ≤ s → s + n = S + 1 →
      chainSearches (uniformTree D C E S O) noFaults ⟨d, c, e, s, 1⟩ =
        ((List.range' s n).flatMap fun i => officeRange d c e i O) ++
          chainSearches (uniformTree D C E S O) noFaults ⟨d, c, e + 1, 1, 1⟩ := by
  intro n
  induction n with
  | zero =>
    intro s hs1 hs2
    rw [searches_uniform_specialty_exh D C E S O d c e s hd1 hd2 hc1 hc2 he1 he2 (by omega)]
    simp
  | succ k ih =>
    intro s hs1 hs2
    rw [chain_off_suffix D C E S O d c e s hd1 hd2 hc1 hc2 he1 he2 hs1 (by omega) O 1
      (by omega) (by omega), ih (s + 1) (by omega) (by omega), List.range'_succ,
      List.flatMap_cons]
    simp [officeRange]

theorem chain_ent_suffix (D C E S O d c : Nat)
    (hd1 : 1 ≤ d) (hd2 : d ≤ D) (hc1 : 1 ≤ c) (hc2 : c ≤ C) :
    ∀ n e, 1 ≤ e → e + n = E + 1 →
      chainSearches (uniformTree D C E S O) noFaults ⟨d, c, e, 1, 1⟩ =
        ((List.range' e n).flatMap fun i => specialtyRange d c i S O) ++
          chainSearches (uniformTree D C E S O) noFaults ⟨d, c + 1, 1, 1, 1⟩ := by
  intro n
  induction n with
  | zero =>
    intro e he1 he2
    rw [searches_uniform_entity_exh D C E S O d c e hd1 hd2 hc1 hc2 (by omega)]
    simp
  | succ k ih =>
    intro e he1 he2
    rw [chain_spec_suffix D C E S O d c e hd1 hd2 hc1 hc2 he1 (by omega) S 1
      (by omega) (by omega), ih (e + 1) (by omega) (by omega), List.range'_succ,
      List.flatMap_cons]
    simp [specialtyRange]

theorem chain_city_suffix (D C E S O d : Nat) (hd1 : 1 ≤ d) (hd2 : d ≤ D) :
    ∀ n c, 1 ≤ c → c + n = C + 1 →
      chainSearches (uniformTree D C E S O) noFaults ⟨d, c, 1, 1, 1⟩ =
        ((List.range' c n).flatMap fun i => entityRange d i E S O) ++
          chainSearches (uniformTree D C E S O) noFaults ⟨d + 1, 1, 1, 1, 1⟩ := by
  intro n
  induction n with
  | zero =>
    intro c hc1 hc2
    rw [searches_uniform_city_exh D C E S O d c hd1 hd2 (by omega)]
    simp
  | succ k ih =>
    intro c hc1 hc2
    rw [chain_ent_suffix D C E S O d c hd1 hd2 hc1 (by omega) E 1 (by omega) (by omega),
      ih (c + 1) (by omega) (by omega), List.range'_succ, List.flatMap_cons]
    simp [entityRange]

theorem chain_dept_suffix (D C E S O : Nat) :
    ∀ n d, 1 ≤ d → d + n = D + 1 →
      chainSearches (uniformTree D C E S O) noFaults ⟨d, 1, 1, 1, 1⟩ =
        (List.range' d n).flatMap fun i => cityRange i C E S O := by
  intro n
  induction n with
  | zero =>
    intro d hd1 hd2
    rw [searches_uniform_done D C E S O d (by omega)]
    simp
  | succ k ih =>
    intro d hd1 hd2
    rw [chain_city_suffix D C E S O d hd1 (by omega) C 1 (by omega) (by omega),
      ih (d + 1) (by omega) (by omega), List.range'_succ, List.flatMap_cons]
    simp [cityRange]

/-- The traversal of the uniform mock tree from the default start searches
exactly the lexicographic enumeration of all index combinations. -/
theorem chainSearches_uniform_eq (D C E S O : Nat) :
    chainSearches (uniformTree D C E S O) noFaults chainStart = fullEnum D C E S O := by
  have h := chain_dept_suffix D C E S O D 1 (by omega) (by omega)
  simpa [chainStart, fullEnum] using h

/-- Strict lexicographic order on index combinations, shallow level first. -/
def argsLt (x y : Args) : Prop :=
  x.dept < y.dept ∨ (x.dept = y.dept ∧ (x.city < y.city ∨ (x.city = y.city ∧
    (x.entity < y.entity ∨ (x.entity = y.entity ∧ (x.specialty < y.specialty ∨
      (x.specialty = y.specialty ∧ x.office < y.office)))))))

theorem argsLt_of_dept {x y : Args} (h : x.dept < y.dept) : argsLt x y := Or.inl h

theorem argsLt_of_city {x y : Args} (hd : x.dept = y.dept) (h : x.city < y.city) :
    argsLt x y := Or.inr ⟨hd, Or.inl h⟩

theorem argsLt_of_entity {x y : Args} (hd : x.dept = y.dept) (hc : x.city = y.city)
    (h : x.entity < y.entity) : argsLt x y := Or.inr ⟨hd, Or.inr ⟨hc, Or.inl h⟩⟩

theorem argsLt_of_specialty {x y : Args} (hd : x.dept = y.dept) (hc : x.city = y.city)
    (he : x.entity = y.entity) (h : x.specialty < y.specialty) : argsLt x y :=
  Or.inr ⟨hd, Or.inr ⟨hc, Or.inr ⟨he, Or.inl h⟩⟩⟩

theorem argsLt_of_office {x y : Args} (hd : x.dept = y.dept) (hc : x.city = y.city)
    (he : x.entity = y.entity) (hs : x.specialty = y.specialty)
    (h : x.office < y.office) : argsLt x y :=
  Or.inr ⟨hd, Or.inr ⟨hc, Or.inr ⟨he, Or.inr ⟨hs, h⟩⟩⟩⟩

theorem argsLt_ne (x y : Args) (h : argsLt x y) : x ≠ y := by
  intro heq
  subst heq
  simp only [argsLt] at h
  omega

theorem length_flatMap_const {α β : Type} (l : List α) (f : α → List β) (k : Nat)
    (h : ∀ x ∈ l, (f x).length = k) : (l.flatMap f).length = l.length * k := by
  induction l with
  | nil => simp
  | cons x xs ih =>
    rw [List.flatMap_cons, List.length_append, h x (by simp),
      ih fun y hy => h y (by simp [hy])]
    simp [Nat.succ_mul]
    omega

theorem officeRange_length (d c e s O : Nat) : (officeRange d c e s O).length = O := by
  simp [officeRange]

theorem specialtyRange_length (d c e S O : Nat) :
    (specialtyRange d c e S O).length = S * O := by
  rw [specialtyRange, length_flatMap_const _ _ O fun x _ => officeRange_length d c e x O]
  simp

theorem entityRange_length (d c E S O : Nat) :
    (entityRange d c E S O).length = E * (S * O) := by
  rw [entityRange, length_flatMap_const _ _ (S * O) fun x _ => specialtyRange_length d c x S O]
  simp

theorem cityRange_length (d C E S O : Nat) :
    (cityRange d C E S O).length = C * (E * (S * O)) := by
  rw [cityRange, length_flatMap_const _ _ (E * (S * O)) fun x _ => entityRange_length d x E S O]
  simp

theorem fullEnum_length (D C E S O : Nat) :
    (fullEnum D C E S O).length = D * C * E * S * O := by
  rw [fullEnum, length_flatMap_const _ _ (C * (E * (S * O)))
    fun x _ => cityRange_length x C E S O]
  simp [List.length_range']
  ring

theorem mem_officeRange (d c e s O : Nat) (x : Args) :
    x ∈ officeRange d c e s O ↔
      x.dept = d ∧ x.city = c ∧ x.entity = e ∧ x.specialty = s ∧
        1 ≤ x.office ∧ x.office ≤ O := by
  cases x with
  | mk xd xc xe xs xo =>
    simp only [officeRange, List.mem_map, List.mem_range'_1, Args.mk.injEq, Args.mk_dept,
      Args.mk_city, Args.mk_entity, Args.mk_specialty, Args.mk_office]
    constructor
    · rintro ⟨i, hi, rfl, rfl, rfl, rfl, rfl⟩
      omega
    · rintro ⟨rfl, rfl, rfl, rfl, h1, h2⟩
      exact ⟨xo, by omega, rfl, rfl, rfl, rfl, rfl⟩

theorem mem_specialtyRange (d c e S O : Nat) (x : Args) :
    x ∈ specialtyRange d c e S O ↔
      x.dept = d ∧ x.city = c ∧ x.entity = e ∧ (1 ≤ x.specialty ∧ x.specialty ≤ S) ∧
        1 ≤ x.office ∧ x.office ≤ O := by
  simp only [specialtyRange, List.mem_flatMap, List.mem_range'_1, mem_officeRange]
  constructor
  · rintro ⟨i, hi, rfl, rfl, rfl, rfl, h⟩
    exact ⟨rfl, rfl, rfl, by omega, h⟩
  · rintro ⟨rfl, rfl, rfl, ⟨h1, h2⟩, h3⟩
    exact ⟨x.specialty, by omega, rfl, rfl, rfl, rfl, h3⟩

theorem mem_entityRange (d c E S O : Nat) (x : Args) :
    x ∈ entityRange d c E S O ↔
      x.dept = d ∧ x.city = c ∧ (1 ≤ x.entity ∧ x.entity ≤ E) ∧
        (1 ≤ x.specialty ∧ x.specialty ≤ S) ∧ 1 ≤ x.office ∧ x.office ≤ O := by
  simp only [entityRange, List.mem_flatMap, List.mem_range'_1, mem_specialtyRange]
  constructor
  · rintro ⟨i, hi, rfl, rfl, rfl, h⟩
    exact ⟨rfl, rfl, by omega, h⟩
  · rintro ⟨rfl, rfl, ⟨h1, h2⟩, h3⟩
    exact ⟨x.entity, by omega, rfl, rfl, rfl, h3⟩

theorem mem_cityRange (d C E S O : Nat) (x : Args) :
    x ∈ cityRange d C E S O ↔
      x.dept = d ∧ (1 ≤ x.city ∧ x.city ≤ C) ∧ (1 ≤ x.entity ∧ x.entity ≤ E) ∧
        (1 ≤ x.specialty ∧ x.specialty ≤ S) ∧ 1 ≤ x.office ∧ x.office ≤ O := by
  simp only [cityRange, List.mem_flatMap, List.mem_range'_1, mem_entityRange]
  constructor
  · rintro ⟨i, hi, rfl, rfl, h⟩
    exact ⟨rfl, by omega, h⟩
  · rintro ⟨rfl, ⟨h1, h2⟩, h3⟩
    exact ⟨x.city, by omega, rfl, rfl, h3⟩

theorem mem_fullEnum (D C E S O : Nat) (x : Args) :
    x ∈ fullEnum D C E S O ↔
      (1 ≤ x.dept ∧ x.dept ≤ D) ∧ (1 ≤ x.city ∧ x.city ≤ C) ∧
        (1 ≤ x.entity ∧ x.entity ≤ E) ∧ (1 ≤ x.specialty ∧ x.specialty ≤ S) ∧
        1 ≤ x.office ∧ x.office ≤ O := by
  simp only [fullEnum, List.mem_flatMap, List.mem_range'_1, mem_cityRange]
  constructor
  · rintro ⟨i, hi, rfl, h⟩
    exact ⟨by omega, h⟩
  · rintro ⟨⟨h1, h2⟩, h3⟩
    exact ⟨x.dept, by omega, rfl, h3⟩

theorem officeRange_pairwise (d c e s O : Nat) :
    (officeRange d c e s O).Pairwise argsLt := by
  rw [officeRange, List.pairwise_map]
  refine (List.pairwise_lt_range' 1 O).imp fun h => ?_
  exact argsLt_of_office rfl rfl rfl rfl h

theorem specialtyRange_pairwise (d c e S O : Nat) :
    (specialtyRange d c e S O).Pairwise argsLt := by
  rw [specialtyRange, List.pairwise_flatMap]
  refine ⟨fun i _ => officeRange_pairwise d c e i O, ?_⟩
  refine (List.pairwise_lt_range' 1 S).imp fun hij x hx y hy => ?_
  rw [mem_officeRange] at hx hy
  exact argsLt_of_specialty (by omega) (by omega) (by omega) (by omega)

theorem entityRange_pairwise (d c E S O : Nat) :
    (entityRange d c E S O).Pairwise argsLt := by
  rw [entityRange, List.pairwise_flatMap]
  refine ⟨fun i _ => specialtyRange_pairwise d c i S O, ?_⟩
  refine (List.pairwise_lt_range' 1 E).imp fun hij x hx y hy => ?_
  rw [mem_specialtyRange] at hx hy
  exact argsLt_of_entity (by omega) (by omega) (by omega)

theorem cityRange_pairwise (d C E S O : Nat) :
    (cityRange d C E S O).Pairwise argsLt := by
  rw [cityRange, List.pairwise_flatMap]
  refine ⟨fun i _ => entityRange_pairwise d i E S O, ?_⟩
  refine (List.pairwise_lt_range' 1 C).imp fun hij x hx y hy => ?_
  rw [mem_entityRange] at hx hy
  exact argsLt_of_city (by omega) (by omega)

theorem fullEnum_pairwise (D C E S O : Nat) : (fullEnum D C E S O).Pairwise argsLt := by
  rw [fullEnum, List.pairwise_flatMap]
  refine ⟨fun i _ => cityRange_pairwise i C E S O, ?_⟩
  refine (List.pairwise_lt_range' 1 D).imp fun hij x hx y hy => ?_
  rw [mem_cityRange] at hx hy
  exact argsLt_of_dept (by omega)

theorem fullEnum_nodup (D C E S O : Nat) : (fullEnum D C E S O).Nodup :=
  (fullEnum_pairwise D C E S O).imp fun h => argsLt_ne _ _ h

/-- C1: on the mock dropdown tree with branching factors `(D, C, E, S, O)`
and fault-free selections, `handle_select_chain` from its default start
triggers a search for exactly the `D·C·E·S·O` index combinations of the
lexicographic enumeration `fullEnum` — each exactly once (the search list
has no duplicate), in strictly increasing lexicographic order, and with
every per-level index at least 1 (index 0, the placeholder, is never
searched) and at most that level's branching factor. -/
theorem C1_exhaustive_lex_traversal (D C E S O : Nat) :
    chainSearches (uniformTree D C E S O) noFaults chainStart = fullEnum D C E S O
    ∧ (chainSearches (uniformTree D C E S O) noFaults chainStart).length = D * C * E * S * O
    ∧ (chainSearches (uniformTree D C E S O) noFaults chainStart).Pairwise argsLt
    ∧ (chainSearches (uniformTree D C E S O) noFaults chainStart).Nodup
    ∧ ∀ x : Args, x ∈ chainSearches (uniformTree D C E S O) noFaults chainStart ↔
        (1 ≤ x.dept ∧ x.dept ≤ D) ∧ (1 ≤ x.city ∧ x.city ≤ C) ∧
          (1 ≤ x.entity ∧ x.entity ≤ E) ∧ (1 ≤ x.specialty ∧ x.specialty ≤ S) ∧
          1 ≤ x.office ∧ x.office ≤ O := by
  rw [chainSearches_uniform_eq]
  exact ⟨rfl, fullEnum_length D C E S O, fullEnum_pairwise D C E S O,
    fullEnum_nodup D C E S O, mem_fullEnum D C E S O⟩

/-! ### The search-results handler (C3, C8, C10) -/

/-- One extracted row of the results table: the five text columns the code
reads from the first five cells (source lines 566-570). -/
structure RowRecord where
  radicado : String
  fecha_radicacion : String
  despacho : String
  clase : String
  sujetos : String
deriving DecidableEq, Repr

/-- The extraction loop of `handle_search_results` (source lines 557-571)
over the `tr` rows of the `ResultadoConsulta` table, each row given as the
texts of its `td` cells.  `rows[1:]` skips the header row; a row with no
cells (`if cols:` false) contributes nothing; a row with at least 5 cells
contributes a record of its first five cell texts stripped; a row with 1-4
cells contributes the empty `row_data` dict, modelled as `none`. -/
def extract_results_table (rows : List (List String)) : List (Option RowRecord) :=
  (rows.drop 1).foldl
    (fun acc cols =>
      if cols.isEmpty then acc
      else
        acc ++ [if 5 ≤ cols.length then
            some ⟨(cols.getD 0 "").trim, (cols.getD 1 "").trim, (cols.getD 2 "").trim,
              (cols.getD 3 "").trim, (cols.getD 4 "").trim⟩
          else none])
    []

/-- What one nonempty row contributes to the table data. -/
def row_entry (cols : List String) : Option RowRecord :=
  if 5 ≤ cols.length then
    some ⟨(cols.getD 0 "").trim, (cols.getD 1 "").trim, (cols.getD 2 "").trim,
      (cols.getD 3 "").trim, (cols.getD 4 "").trim⟩
  else none

theorem extract_results_table_aux (l : List (List String))
    (acc : List (Option RowRecord)) :
    l.foldl
      (fun acc cols =>
        if cols.isEmpty then acc
        else
          acc ++ [if 5 ≤ cols.length then
              some ⟨(cols.getD 0 "").trim, (cols.getD 1 "").trim, (cols.getD 2 "").trim,
                (cols.getD 3 "").trim, (cols.getD 4 "").trim⟩
            else none])
      acc = acc ++ (l.filter fun r => !r.isEmpty).map row_entry := by
  induction l generalizing acc with
  | nil => simp
  | cons x xs ih =>
    by_cases hx : x.isEmpty
    · simp only [List.foldl_cons, if_pos hx, List.filter_cons, hx]
      simpa using ih acc
    · simp only [List.foldl_cons, if_neg hx, List.filter_cons, hx]
      rw [ih]
      simp [row_entry]

/-- The extraction rule exactly as claim C3 states it: one entry per data
row that has at least 5 columns, holding the five stripped cell texts; every
data row with fewer than 5 columns contributes no entry. -/
def claimed_extract (rows : List (List String)) : List RowRecord :=
  ((rows.drop 1).filter fun r => 5 ≤ r.length).map fun cols =>
    ⟨(cols.getD 0 "").trim, (cols.getD 1 "").trim, (cols.getD 2 "").trim,
      (cols.getD 3 "").trim, (cols.getD 4 "").trim⟩

/-- C3 (amended): row extraction produces exactly one entry per data row
that has at least one cell — a full five-field record (first five cells,
stripped) when the row has at least 5 cells, and an empty entry (`none`,
the empty `row_data` dict) when it has 1 to 4 cells; rows with no cells are
skipped. -/
theorem C3_extract_rows_characterized (rows : List (List String)) :
    extract_results_table rows =
      ((rows.drop 1).filter fun r => !r.isEmpty).map row_entry := by
  unfold extract_results_table
  rw [extract_results_table_aux]
  simp

/-- Counterexample to C3 as stated: a table whose only data row has 3
columns.  The claim says such a row contributes no entry, so the record
would hold 0 row entries; the code appends the empty `row_data` dict for
it, producing 1 entry. -/
theorem C3_counterexample_short_row :
    extract_results_table [["h1", "h2", "h3", "h4", "h5"], ["a", "b", "c"]] = [none]
    ∧ (claimed_extract [["h1", "h2", "h3", "h4", "h5"], ["a", "b", "c"]]).length = 0
    ∧ (extract_results_table [["h1", "h2", "h3", "h4", "h5"], ["a", "b", "c"]]).length ≠ 0 := by
  refine ⟨by decide, by decide, by decide⟩

/-- Whether the character list `needle` is a prefix of the second list. -/
def charsStartWith : List Char → List Char → Bool
  | [], _ => true
  | _ :: _, [] => false
  | x :: xs, y :: ys => x == y && charsStartWith xs ys

/-- Whether `needle` occurs contiguously in the second list: the Python
`in` operator on strings. -/
def charsContain (needle : List Char) : List Char → Bool
  | [] => needle.isEmpty
  | h :: tl => charsStartWith needle (h :: tl) || charsContain needle tl

/-- Python's `needle in s` on strings. -/
def strContains (needle s : String) : Bool :=
  charsContain needle.data s.data

/-- The no-results modal message (source line 528, reproduced byte for byte
from the file, including its mangled accented character). -/
def no_results_message : String :=
  "La consulta no gener칩 resultados, por favor revisar las opciones ingresadas e intentarlo nuevamente."

/-- The five selected texts passed to `handle_search_results` (source lines
506-512). -/
structure SearchParams where
  department : String
  city : String
  entity : String
  specialty : String
  office : String
deriving DecidableEq, Repr

/-- One Result Record: the entry appended to `self.results` (source lines
574-580). -/
structure ResultEntry where
  search_params : SearchParams
  search_name : String
  results : List (Option RowRecord)
deriving DecidableEq, Repr

/-- What the page shows after a search: either the results modal never
becomes visible (the wait raises and the handler's `except` branch runs),
or the modal is shown with a message text and, possibly, the
`ResultadoConsulta` table. -/
inductive SearchResponse where
  | noModal
  | modalShown (text : String) (table : Option (List (List String)))
deriving DecidableEq, Repr

/-- `handle_search_results` (source lines 517-595) as a transformation of
the in-memory `self.results` sequence.  If the modal never appears the
`except` branch re-primes the form and leaves `self.results` unchanged.  If
the modal text contains the no-results message the handler dismisses it and
returns with no Result Record (lines 541-547).  Otherwise it extracts the
table rows and appends one Result Record (lines 553-580); a missing table
raises into the `except` branch, leaving the sequence unchanged. -/
def handle_search_results (resp : SearchResponse) (params : SearchParams) (name : String)
    (results : List ResultEntry) : List ResultEntry :=
  match resp with
  | .noModal => results
  | .modalShown text table =>
    if strContains no_results_message text then results
    else
      match table with
      | none => results
      | some rows => results ++ [⟨params, name, extract_results_table rows⟩]

/-- The object `save_results` writes (source lines 597-611): `search_name`,
`total_results = len(self.results)`, and the records themselves. -/
structure SavedFile where
  search_name : String
  total_results : Nat
  results : List ResultEntry
deriving DecidableEq, Repr

/-- `save_results`: serialize the current in-memory sequence. -/
def save_results (name : String) (results : List ResultEntry) : SavedFile :=
  ⟨name, results.length, results⟩

/-- C8: a search classified as no-results (the modal text contains the
no-results message) leaves the in-memory result sequence unchanged, creates
no Result Record, and leaves the `total_results` count that `save_results`
would persist unchanged. -/
theorem C8_no_results_unchanged (text : String) (table : Option (List (List String)))
    (params : SearchParams) (name : String) (results : List ResultEntry)
    (h : strContains no_results_message text = true) :
    handle_search_results (.modalShown text table) params name results = results
    ∧ (save_results name
        (handle_search_results (.modalShown text table) params name results)).total_results =
      (save_results name results).total_results := by
  have heq : handle_search_results (.modalShown text table) params name results = results := by
    simp only [handle_search_results, if_pos h]
  exact ⟨heq, by rw [heq]⟩

/-- Witness for C8: the modal showing exactly the no-results message leaves
an empty result sequence empty. -/
theorem C8_no_results_unchanged_witness :
    handle_search_results (.modalShown no_results_message none)
      ⟨"A", "c", "e", "s", "o"⟩ "N" [] = [] :=
  (C8_no_results_unchanged no_results_message none ⟨"A", "c", "e", "s", "o"⟩ "N" []
    (by decide)).1

/-- The in-memory result sequence after a list of searches, each given by
its page response and its selected texts: `handle_search_results` applied
in order, as the traversal does. -/
def processSearches (name : String) (steps : List (SearchResponse × SearchParams))
    (results : List ResultEntry) : List ResultEntry :=
  steps.foldl (fun acc p => handle_search_results p.1 p.2 name acc) results

/-- C10: the in-memory result sequence is append-only.  Every single
`handle_search_results` call leaves it unchanged or appends exactly one
Result Record at the end; over any run of searches the earlier sequence is
a prefix of the later one; and `save_results` persists exactly the current
records with `total_results` equal to their number. -/
theorem C10_results_append_only :
    (∀ (resp : SearchResponse) (params : SearchParams) (name : String)
        (results : List ResultEntry),
      handle_search_results resp params name results = results ∨
        ∃ e, handle_search_results resp params name results = results ++ [e])
    ∧ (∀ (name : String) (steps : List (SearchResponse × SearchParams))
        (results : List ResultEntry),
      ∃ tail, processSearches name steps results = results ++ tail)
    ∧ ∀ (name : String) (results : List ResultEntry),
        (save_results name results).total_results = results.length ∧
          (save_results name results).results = results := by
  have h1 : ∀ (resp : SearchResponse) (params : SearchParams) (name : String)
      (results : List ResultEntry),
      handle_search_results resp params name results = results ∨
        ∃ e, handle_search_results resp params name results = results ++ [e] := by
    intro resp params name results
    cases resp with
    | noModal => exact Or.inl rfl
    | modalShown text table =>
      by_cases h : strContains no_results_message text
      · exact Or.inl (by simp only [handle_search_results, if_pos h])
      · cases table with
        | none => exact Or.inl (by simp only [handle_search_results, if_neg h])
        | some rows =>
          exact Or.inr ⟨⟨params, name, extract_results_table rows⟩,
            by simp only [handle_search_results, if_neg h]⟩
  refine ⟨h1, ?_, fun name results => ⟨rfl, rfl⟩⟩
  intro name steps
  induction steps with
  | nil => exact fun results => ⟨[], by simp [processSearches]⟩
  | cons p ps ih =>
    intro results
    have hstep := h1 p.1 p.2 name results
    rcases hstep with h | ⟨e, h⟩
    · obtain ⟨tail, htail⟩ := ih (handle_search_results p.1 p.2 name results)
      exact ⟨tail, by rw [processSearches, List.foldl_cons, ← processSearches, htail, h]⟩
    · obtain ⟨tail, htail⟩ := ih (handle_search_results p.1 p.2 name results)
      refine ⟨[e] ++ tail, ?_⟩
      rw [processSearches, List.foldl_cons, ← processSearches, htail, h]
      simp

/-! ### The whole run and its single flush (C4, C7) -/

/-- Observable events of one `run()`: a search submitted at an argument
tuple, or a flush of the in-memory records to the result file. -/
inductive RunEv where
  | searched (a : Args)
  | flushed (f : SavedFile)
deriving DecidableEq, Repr

/-- Whether a run event is a flush to the Result Sink. -/
def isFlush : RunEv → Bool
  | .flushed _ => true
  | .searched _ => false

/-- The five selected texts passed to `handle_search_results` for the path
at `a` (source lines 506-512). -/
def paramsOf (t : FormTree) (a : Args) : SearchParams :=
  ⟨t.departments.getD a.dept "", (t.cities a.dept).getD a.city "",
    (t.entities a.dept a.city).getD a.entity "",
    (t.specialties a.dept a.city a.entity).getD a.specialty "",
    (t.offices a.dept a.city a.entity a.specialty).getD a.office ""⟩

/-- The in-memory `self.results` after handling the given searches in
order, starting from the empty sequence. -/
def collected (t : FormTree) (resp : Args → SearchResponse) (name : String)
    (searches : List Args) : List ResultEntry :=
  searches.foldl (fun acc a => handle_search_results (resp a) (paramsOf t a) name acc) []

/-- `run()` (source lines 613-639): prime the form, run
`handle_select_chain` — during which every searched path is handled and, at
most, appended to `self.results` — and then call `save_results` exactly
once.  The `except Exception` branch (lines 631-632) only logs: when an
unrecoverable fault surfaces out of the traversal after `k` searches
(`fatalAfter = some k`), the run exits without any flush. -/
def scraper_run (t : FormTree) (flt : Args → Faults) (resp : Args → SearchResponse)
    (name : String) (fatalAfter : Option Nat) : List RunEv :=
  match fatalAfter with
  | none =>
    ((chainSearches t flt chainStart).map RunEv.searched) ++
      [RunEv.flushed (save_results name
        (collected t resp name (chainSearches t flt chainStart)))]
  | some k => ((chainSearches t flt chainStart).take k).map RunEv.searched

theorem filter_isFlush_map_searched (l : List Args) :
    (l.map RunEv.searched).filter isFlush = [] := by
  induction l with
  | nil => rfl
  | cons x xs ih => simp [isFlush, ih]

/-- C4 (amended): in a fault-free-exit run the Result Sink is written
exactly once — a single flush event, the last event of the run, carrying
the whole in-memory sequence collected during the traversal.  No flush
happens between searches. -/
theorem C4_flush_once_at_end (t : FormTree) (flt : Args → Faults)
    (resp : Args → SearchResponse) (name : String) :
    (scraper_run t flt resp name none).filter isFlush =
      [RunEv.flushed (save_results name
        (collected t resp name (chainSearches t flt chainStart)))]
    ∧ (scraper_run t flt resp name none).getLast? =
      some (RunEv.flushed (save_results name
        (collected t resp name (chainSearches t flt chainStart)))) := by
  constructor
  · unfold scraper_run
    rw [List.filter_append, filter_isFlush_map_searched]
    rfl
  · unfold scraper_run
    simp

/-- The uniform tree with two offices under a single chain, used by the
run counterexamples. -/
def t2ex : FormTree := uniformTree 1 1 1 1 2

/-- A page response oracle that always shows a results table with one
complete data row. -/
def respAll : Args → SearchResponse :=
  fun _ => .modalShown "Consulta procesada."
    (some [["h1", "h2", "h3", "h4", "h5"], ["r1", "f1", "d1", "c1", "s1"]])

theorem t2ex_searches :
    chainSearches t2ex noFaults chainStart = [⟨1, 1, 1, 1, 1⟩, ⟨1, 1, 1, 1, 2⟩] := by
  rw [show t2ex = uniformTree 1 1 1 1 2 from rfl, chainSearches_uniform_eq]
  decide

/-- Counterexample to C4 as stated: a run with two result-yielding searches
produces exactly one flush, and only after both searches — the sequence is
not flushed after the first successful extraction. -/
theorem C4_counterexample_single_final_flush :
    scraper_run t2ex noFaults respAll "N" none =
      [.searched ⟨1, 1, 1, 1, 1⟩, .searched ⟨1, 1, 1, 1, 2⟩,
        .flushed (save_results "N"
          (collected t2ex respAll "N" [⟨1, 1, 1, 1, 1⟩, ⟨1, 1, 1, 1, 2⟩]))]
    ∧ ((scraper_run t2ex noFaults respAll "N" none).filter isFlush).length = 1
    ∧ (collected t2ex respAll "N" [⟨1, 1, 1, 1, 1⟩, ⟨1, 1, 1, 1, 2⟩]).length = 2 := by
  have hrun : scraper_run t2ex noFaults respAll "N" none =
      ([⟨1, 1, 1, 1, 1⟩, ⟨1, 1, 1, 1, 2⟩].map RunEv.searched) ++
        [RunEv.flushed (save_results "N"
          (collected t2ex respAll "N" [⟨1, 1, 1, 1, 1⟩, ⟨1, 1, 1, 1, 2⟩]))] := by
    unfold scraper_run
    rw [t2ex_searches]
  refine ⟨by rw [hrun]; rfl, by rw [hrun]; decide, by decide⟩

/-- C7 (amended): when an unrecoverable fault surfaces out of the traversal
(the `except` branch of `run()`), the run performs no flush at all: the
Result Records collected in memory are dropped, not persisted. -/
theorem C7_fatal_exit_never_flushes (t : FormTree) (flt : Args → Faults)
    (resp : Args → SearchResponse) (name : String) (k : Nat) :
    (scraper_run t flt resp name (some k)).filter isFlush = [] := by
  unfold scraper_run
  exact filter_isFlush_map_searched _

/-- Counterexample to C7 as stated: a run aborted by a fatal fault after
its first search has one Result Record in memory, yet its event list
contains no flush — the collected record is lost, not persisted before
exit. -/
theorem C7_counterexample_fatal_drops_records :
    scraper_run t2ex noFaults respAll "N" (some 1) = [.searched ⟨1, 1, 1, 1, 1⟩]
    ∧ (scraper_run t2ex noFaults respAll "N" (some 1)).filter isFlush = []
    ∧ (collected t2ex respAll "N" [⟨1, 1, 1, 1, 1⟩]).length = 1 := by
  have hrun : scraper_run t2ex noFaults respAll "N" (some 1) =
      ([⟨1, 1, 1, 1, 1⟩, ⟨1, 1, 1, 1, 2⟩].take 1).map RunEv.searched := by
    unfold scraper_run
    rw [t2ex_searches]
  refine ⟨by rw [hrun]; rfl, by rw [hrun]; decide, by decide⟩

/-! ### The target-department shortcut (C6) -/

/-- Modelled from the spec: a case-insensitive exact text match between the
caller's target department and one option's text.  The source has no
target-department feature at all — `JudicialProcessScraper.__init__`
(lines 30-50) takes only `search_name` and `headless`, and `main` (lines
650-659) passes nothing else — so the shortcut of spec §4.2 is modelled
from the spec's words here. -/
def matchesTarget (target o : String) : Bool :=
  o.data.map Char.toLower == target.data.map Char.toLower

/-- Modelled from the spec: the single linear scan of DEPARTMENT's options
for the first case-insensitive exact match; `none` reports not-found. -/
def find_department_index (target : String) (options : List String) : Option Nat :=
  options.findIdx? (matchesTarget target)

/-- Modelled from the spec: the form tree as seen once DEPARTMENT is fixed
at index `d` — one real department option, every deeper list that of the
matched department. -/
def fixDept (t : FormTree) (d : Nat) : FormTree :=
  ⟨[t.departments.getD 0 "", t.departments.getD d ""], fun _ => t.cities d,
    fun _ c => t.entities d c, fun _ c e => t.specialties d c e,
    fun _ c e s => t.offices d c e s⟩

/-- Modelled from the spec: a run with a target department.  Scan the
department options once; if no option matches, terminate immediately with
zero searches and a reported not-found condition (`false`); otherwise
select the match directly and begin the recursive descent at CITY with
DEPARTMENT fixed, searching only combinations under the matched
department. -/
def run_with_target (t : FormTree) (flt : Args → Faults) (target : String) :
    Bool × List Args :=
  match find_department_index target t.departments with
  | none => (false, [])
  | some d =>
    (true, (chainSearches (fixDept t d) flt chainStart).map fun a => { a with dept := d })

theorem find_department_index_first (target : String) :
    ∀ (options : List String) (i : Nat),
      find_department_index target options = some i →
        i < options.length ∧ matchesTarget target (options.getD i "") = true ∧
          ∀ j, j < i → matchesTarget target (options.getD j "") = false := by
  intro options
  induction options with
  | nil => intro i h; simp [find_department_index] at h
  | cons x xs ih =>
    intro i h
    rw [find_department_index, List.findIdx?_cons] at h
    by_cases hx : matchesTarget target x
    · rw [if_pos hx, Option.some.injEq] at h
      subst h
      exact ⟨by simp, by simpa using hx, fun j hj => absurd hj (by omega)⟩
    · rw [if_neg hx, List.findIdx?_succ] at h
      rcases Option.map_eq_some'.mp h with ⟨k, hk, rfl⟩
      obtain ⟨h1, h2, h3⟩ := ih k hk
      refine ⟨by simpa using h1, by simpa using h2, ?_⟩
      intro j hj
      cases j with
      | zero => simpa using hx
      | succ j => simpa using h3 j (by omega)

/-- C6: with a caller-supplied target department (modelled from spec §4.2):
the scan returns the first case-insensitively matching option index; on a
match the run reports found and every searched combination carries the
matched department — the descent happens under the fixed DEPARTMENT, no
other department is enumerated; when no option matches, the run terminates
immediately with zero searches and a reported not-found condition. -/
theorem C6_department_shortcut (t : FormTree) (flt : Args → Faults) (target : String) :
    (∀ i, find_department_index target t.departments = some i →
      i < t.departments.length ∧ matchesTarget target (t.departments.getD i "") = true ∧
        ∀ j, j < i → matchesTarget target (t.departments.getD j "") = false)
    ∧ (∀ d, find_department_index target t.departments = some d →
        (run_with_target t flt target).1 = true ∧
          ∀ a ∈ (run_with_target t flt target).2, a.dept = d)
    ∧ ((∀ x ∈ t.departments, matchesTarget target x = false) →
        run_with_target t flt target = (false, [])) := by
  refine ⟨fun i h => find_department_index_first target t.departments i h, ?_, ?_⟩
  · intro d h
    unfold run_with_target
    rw [h]
    refine ⟨rfl, ?_⟩
    intro a ha
    simp only [List.mem_map] at ha
    obtain ⟨b, _, rfl⟩ := ha
    rfl
  · intro h
    unfold run_with_target
    rw [show find_department_index target t.departments = none from
      List.findIdx?_eq_none_iff.mpr h]

/-- Witness for C6: on the example tree, target "a" matches option "A" at
index 1 case-insensitively; the run reports found and every searched
combination has department 1. -/
theorem C6_department_shortcut_witness :
    (run_with_target exTree noFaults "a").1 = true ∧
      ∀ a ∈ (run_with_target exTree noFaults "a").2, a.dept = 1 :=
  (C6_department_shortcut exTree noFaults "a").2.1 1 (by decide)
